import Mathlib

/-!
Shallow embedding of the rhaisdl bridge (src/lib.rs): an SDL3 hardware
context (`SDLContext`) driven by Rhai-registered closures.

Machine integers are modelled as `Int`/`Nat` with explicit reduction where
Rust performs a truncating `as` cast.  Calls into the SDL backend that can
fail for reasons outside the stored context state (video-subsystem
acquisition, window building, event-pump acquisition, the draw primitives)
take the backend's answer as an explicit `Except String _` oracle argument;
the observable control flow around that answer is translated line by line
from the source.  Every `&mut self` method becomes a function
`SDLContext → result × SDLContext` returning the post-state.
-/

namespace RhaiSdl

/-- Rust `v as u8` on an `i64` value: keep the low 8 bits. -/
def as_u8 (v : Int) : Nat := (v % 256).toNat

/-- Rust `v as i32` on an `i64` value: keep the low 32 bits, reinterpreted
as a signed 32-bit value. -/
def as_i32 (v : Int) : Int := (v + 2 ^ 31) % 2 ^ 32 - 2 ^ 31

/-- Rust `v as u32` on an `i32` value: reinterpret the 32-bit pattern as
unsigned. -/
def as_u32 (v : Int) : Nat := (v % 2 ^ 32).toNat

/-- Rust `sdl3::pixels::Color` as used by the code: three 8-bit channels. -/
structure Color where
  r : Nat
  g : Nat
  b : Nat
deriving DecidableEq

/-- The observable identity of an SDL window built by
`video.window(title, w, h).position_centered().build()`. -/
structure Window where
  title : String
  width : Nat
  height : Nat
deriving DecidableEq

/-- Drawing commands issued to a canvas, recording the arguments each
`SDLContext` drawing method passes to the backend. -/
inductive DrawCmd
  | clearCmd (c : Color)
  | rect (x y : Int) (w h : Nat)
  | fillRect (x y : Int) (w h : Nat)
  | point (x y : Int)
  | line (x1 y1 x2 y2 : Int)
deriving DecidableEq

/-- Rust `sdl3::render::Canvas<Window>`: the window it draws to, the current
draw color, the log of issued drawing commands, and how many times it was
presented. -/
structure Canvas where
  window : Window
  drawColor : Color
  log : List DrawCmd
  presented : Nat
deriving DecidableEq

/-- A fresh canvas as produced by `window.into_canvas()`. -/
def Canvas.init (w : Window) : Canvas := ⟨w, ⟨0, 0, 0⟩, [], 0⟩

/-- Rust `sdl3::keyboard::Scancode`, restricted to the codes the bridge names
plus an opaque remainder. -/
inductive Scancode
  | space
  | left
  | right
  | up
  | down
  | otherCode (code : Nat)
deriving DecidableEq

/-- Rust `sdl3::mouse::MouseButton`, restricted likewise. -/
inductive MouseButton
  | left
  | right
  | middle
  | otherButton (code : Nat)
deriving DecidableEq

/-- Rust `sdl3::event::Event`: the code only distinguishes `Event::Quit { .. }`
from every other constructor. -/
inductive Event
  | quit
  | keyDown (sc : Scancode)
  | keyUp (sc : Scancode)
  | mouseMotion (x y : Int)
  | otherEvent
deriving DecidableEq

/-- The mouse state a pump reports: pressed buttons and cursor position. -/
structure MouseState where
  pressed : List MouseButton
  x : Int
  y : Int
deriving DecidableEq

/-- Rust `sdl3::EventPump`: the pending event queue plus the keyboard and mouse
snapshots it reports. -/
structure EventPump where
  queue : List Event
  keyboard : List Scancode
  mouse : MouseState
deriving DecidableEq

/-- Rust `SDLContext` (src/lib.rs lines 14-19): the `sdl` subsystem handle has
no observable state of its own and is omitted; the three `Option` fields
are kept as in the source. -/
structure SDLContext where
  window : Option Window
  canvas : Option Canvas
  event_pump : Option EventPump
deriving DecidableEq

/-- Rust `SDLContext::new`: `sdl3::init()` may fail (oracle `initResult`);
on success every optional field starts as `None`. -/
def SDLContext.new (initResult : Except String Unit) : Except String SDLContext :=
  match initResult with
  | .error e => .error e
  | .ok _ => .ok ⟨none, none, none⟩

/-- Rust `SDLContext::create_window` (lines 32-43).  `videoResult` is the
outcome of `self.sdl.video()`, `buildResult` the outcome of the window
builder; on success the built window and a fresh canvas over it are
stored, replacing whatever was there. -/
def SDLContext.create_window (ctx : SDLContext) (title : String) (width height : Int)
    (videoResult buildResult : Except String Unit) :
    Except String Unit × SDLContext :=
  match videoResult with
  | .error e => (.error e, ctx)
  | .ok _ =>
    match buildResult with
    | .error e => (.error e, ctx)
    | .ok _ =>
      let w : Window := ⟨title, as_u32 width, as_u32 height⟩
      (.ok (), { ctx with window := some w, canvas := some (Canvas.init w) })

/-- Rust `SDLContext::set_draw_color` (lines 45-52). -/
def SDLContext.set_draw_color (ctx : SDLContext) (r g b : Nat) :
    Except String Unit × SDLContext :=
  match ctx.canvas with
  | some canvas =>
    (.ok (), { ctx with canvas := some { canvas with drawColor := ⟨r, g, b⟩ } })
  | none => (.error "Canvas not initialized", ctx)

/-- Rust `SDLContext::clear` (lines 54-61): fills with the current draw color. -/
def SDLContext.clear (ctx : SDLContext) : Except String Unit × SDLContext :=
  match ctx.canvas with
  | some canvas =>
    let canvas' := { canvas with log := canvas.log ++ [DrawCmd.clearCmd canvas.drawColor] }
    (.ok (), { ctx with canvas := some canvas' })
  | none => (.error "Canvas not initialized", ctx)

/-- Rust `SDLContext::draw_rect` (lines 63-72): `w`/`h` are cast `i32 → u32`;
the backend draw call may fail (`backendResult`). -/
def SDLContext.draw_rect (ctx : SDLContext) (x y w h : Int)
    (backendResult : Except String Unit) : Except String Unit × SDLContext :=
  match ctx.canvas with
  | some canvas =>
    match backendResult with
    | .error e => (.error e, ctx)
    | .ok _ =>
      let canvas' := { canvas with log := canvas.log ++ [DrawCmd.rect x y (as_u32 w) (as_u32 h)] }
      (.ok (), { ctx with canvas := some canvas' })
  | none => (.error "Canvas not initialized", ctx)

/-- Rust `SDLContext::fill_rect` (lines 74-83). -/
def SDLContext.fill_rect (ctx : SDLContext) (x y w h : Int)
    (backendResult : Except String Unit) : Except String Unit × SDLContext :=
  match ctx.canvas with
  | some canvas =>
    match backendResult with
    | .error e => (.error e, ctx)
    | .ok _ =>
      let canvas' := { canvas with log := canvas.log ++ [DrawCmd.fillRect x y (as_u32 w) (as_u32 h)] }
      (.ok (), { ctx with canvas := some canvas' })
  | none => (.error "Canvas not initialized", ctx)

/-- Rust `SDLContext::draw_point` (lines 85-94). -/
def SDLContext.draw_point (ctx : SDLContext) (x y : Int)
    (backendResult : Except String Unit) : Except String Unit × SDLContext :=
  match ctx.canvas with
  | some canvas =>
    match backendResult with
    | .error e => (.error e, ctx)
    | .ok _ =>
      let canvas' := { canvas with log := canvas.log ++ [DrawCmd.point x y] }
      (.ok (), { ctx with canvas := some canvas' })
  | none => (.error "Canvas not initialized", ctx)

/-- Rust `SDLContext::draw_line` (lines 96-105). -/
def SDLContext.draw_line (ctx : SDLContext) (x1 y1 x2 y2 : Int)
    (backendResult : Except String Unit) : Except String Unit × SDLContext :=
  match ctx.canvas with
  | some canvas =>
    match backendResult with
    | .error e => (.error e, ctx)
    | .ok _ =>
      let canvas' := { canvas with log := canvas.log ++ [DrawCmd.line x1 y1 x2 y2] }
      (.ok (), { ctx with canvas := some canvas' })
  | none => (.error "Canvas not initialized", ctx)

/-- Rust `SDLContext::present` (lines 107-114). -/
def SDLContext.present (ctx : SDLContext) : Except String Unit × SDLContext :=
  match ctx.canvas with
  | some canvas =>
    (.ok (), { ctx with canvas := some { canvas with presented := canvas.presented + 1 } })
  | none => (.error "Canvas not initialized", ctx)

/-- Rust `SDLContext::init_event_pump` (lines 116-119): `self.sdl.event_pump()`
may fail (oracle `pumpResult`); on success the pump is stored, replacing
any previous one. -/
def SDLContext.init_event_pump (ctx : SDLContext) (pumpResult : Except String EventPump) :
    Except String Unit × SDLContext :=
  match pumpResult with
  | .error e => (.error e, ctx)
  | .ok p => (.ok (), { ctx with event_pump := some p })

/-- Rust `SDLContext::poll_event` (lines 121-131): dequeue at most one event;
`Quit` yields `Ok(false)`, any other event or an empty queue yields
`Ok(true)`. -/
def SDLContext.poll_event (ctx : SDLContext) : Except String Bool × SDLContext :=
  match ctx.event_pump with
  | none => (.error "Event pump not initialized", ctx)
  | some p =>
    match p.queue with
    | [] => (.ok true, ctx)
    | e :: rest =>
      let ctx' : SDLContext := { ctx with event_pump := some { p with queue := rest } }
      match e with
      | .quit => (.ok false, ctx')
      | _ => (.ok true, ctx')

/-- Rust `str::to_lowercase()` as applied by `is_key_down` and
`is_mouse_button_down`: per-character lowercasing (the names being matched
are pure ASCII, where Unicode and ASCII lowercasing agree). -/
def lowercase (s : String) : String := ⟨s.data.map Char.toLower⟩

/-- The inline `match key.to_lowercase().as_str()` of
`SDLContext::is_key_down` (lines 135-142). -/
def keyScancode (key : String) : Option Scancode :=
  let k := lowercase key
  if k = "space" then some .space
  else if k = "left" then some .left
  else if k = "right" then some .right
  else if k = "up" then some .up
  else if k = "down" then some .down
  else none

/-- Rust `SDLContext::is_key_down` (lines 133-148): pump precondition first,
then the name match (an unknown name is `Err("Unsupported key: {key}")`),
then `pressed_scancodes().any(|s| s == scancode)`. -/
def SDLContext.is_key_down (ctx : SDLContext) (key : String) :
    Except String Bool × SDLContext :=
  match ctx.event_pump with
  | none => (.error "Event pump not initialized", ctx)
  | some pump =>
    match keyScancode key with
    | none => (.error ("Unsupported key: " ++ key), ctx)
    | some sc => (.ok (pump.keyboard.any fun s => s == sc), ctx)

/-- The inline `match button.to_lowercase().as_str()` of
`SDLContext::is_mouse_button_down` (lines 153-158). -/
def buttonMask (button : String) : Option MouseButton :=
  let k := lowercase button
  if k = "left" then some .left
  else if k = "right" then some .right
  else if k = "middle" then some .middle
  else none

/-- Rust `SDLContext::is_mouse_button_down` (lines 150-163). -/
def SDLContext.is_mouse_button_down (ctx : SDLContext) (button : String) :
    Except String Bool × SDLContext :=
  match ctx.event_pump with
  | none => (.error "Event pump not initialized", ctx)
  | some pump =>
    match buttonMask button with
    | none => (.error ("Unsupported mouse button: " ++ button), ctx)
    | some m => (.ok (pump.mouse.pressed.any fun s => s == m), ctx)

/-- Rust `SDLContext::get_mouse_position` (lines 165-172): widens the cursor
coordinates to the script's `i64`. -/
def SDLContext.get_mouse_position (ctx : SDLContext) :
    Except String (Int × Int) × SDLContext :=
  match ctx.event_pump with
  | none => (.error "Event pump not initialized", ctx)
  | some pump => (.ok (pump.mouse.x, pump.mouse.y), ctx)

/-- Rust `SDLContext::delay` (lines 174-177): sleeping has no observable effect
on the context; the call always succeeds. -/
def SDLContext.delay (ctx : SDLContext) (_ms : Nat) : Except String Unit × SDLContext :=
  (.ok (), ctx)

/-- Rust `rhai::EvalAltResult`, restricted to the variants relevant here: the
bridge only ever constructs `ErrorRuntime` with a string payload
(`Dynamic::from(e)`); the other variants stand for the structured kinds
the runtime defines but the bridge never uses. -/
inductive EvalAltResult
  | ErrorRuntime (payload : String)
  | ErrorSystem (msg : String)
  | ErrorFunctionNotFound (name : String)
deriving DecidableEq

/-- The registration pattern shared verbatim by every closure in
`register_sdl_module` (lines 183-477): lock the shared context
(`lockResult` is the mutex's answer; a poison error carries its message
string), run the context operation, and `map_err` each failure into
`EvalAltResult::ErrorRuntime` carrying the message.  The second component
is the context left in the mutex afterwards (unreachable if the lock
failed). -/
def bridgeCall {α : Type} (lockResult : Except String SDLContext)
    (op : SDLContext → Except String α × SDLContext) :
    Except EvalAltResult α × Except String SDLContext :=
  match lockResult with
  | .error e => (.error (.ErrorRuntime e), .error e)
  | .ok ctx =>
    match op ctx with
    | (.error e, ctx') => (.error (.ErrorRuntime e), .ok ctx')
    | (.ok v, ctx') => (.ok v, .ok ctx')

/-- Registered `create_window` (lines 183-202): Rhai `i64` width/height
are cast `as i32` before the context call. -/
def rhai_create_window (lockResult : Except String SDLContext) (title : String)
    (width height : Int) (videoResult buildResult : Except String Unit) :
    Except EvalAltResult Unit × Except String SDLContext :=
  bridgeCall lockResult fun ctx =>
    ctx.create_window title (as_i32 width) (as_i32 height) videoResult buildResult

/-- Registered `set_draw_color` (lines 204-224): Rhai `i64` channels are
cast `as u8` before the context call. -/
def rhai_set_draw_color (lockResult : Except String SDLContext) (r g b : Int) :
    Except EvalAltResult Unit × Except String SDLContext :=
  bridgeCall lockResult fun ctx => ctx.set_draw_color (as_u8 r) (as_u8 g) (as_u8 b)

/-- Registered `clear` (lines 226-243). -/
def rhai_clear (lockResult : Except String SDLContext) :
    Except EvalAltResult Unit × Except String SDLContext :=
  bridgeCall lockResult fun ctx => ctx.clear

/-- Registered `draw_rect` (lines 245-265): all four `i64` arguments are
cast `as i32`. -/
def rhai_draw_rect (lockResult : Except String SDLContext) (x y w h : Int)
    (backendResult : Except String Unit) :
    Except EvalAltResult Unit × Except String SDLContext :=
  bridgeCall lockResult fun ctx =>
    ctx.draw_rect (as_i32 x) (as_i32 y) (as_i32 w) (as_i32 h) backendResult

/-- Registered `fill_rect` (lines 267-287). -/
def rhai_fill_rect (lockResult : Except String SDLContext) (x y w h : Int)
    (backendResult : Except String Unit) :
    Except EvalAltResult Unit × Except String SDLContext :=
  bridgeCall lockResult fun ctx =>
    ctx.fill_rect (as_i32 x) (as_i32 y) (as_i32 w) (as_i32 h) backendResult

/-- Registered `draw_point` (lines 289-309). -/
def rhai_draw_point (lockResult : Except String SDLContext) (x y : Int)
    (backendResult : Except String Unit) :
    Except EvalAltResult Unit × Except String SDLContext :=
  bridgeCall lockResult fun ctx => ctx.draw_point (as_i32 x) (as_i32 y) backendResult

/-- Registered `draw_line` (lines 311-331). -/
def rhai_draw_line (lockResult : Except String SDLContext) (x1 y1 x2 y2 : Int)
    (backendResult : Except String Unit) :
    Except EvalAltResult Unit × Except String SDLContext :=
  bridgeCall lockResult fun ctx =>
    ctx.draw_line (as_i32 x1) (as_i32 y1) (as_i32 x2) (as_i32 y2) backendResult

/-- Registered `present` (lines 333-350). -/
def rhai_present (lockResult : Except String SDLContext) :
    Except EvalAltResult Unit × Except String SDLContext :=
  bridgeCall lockResult fun ctx => ctx.present

/-- Registered `init_event_pump` (lines 352-372). -/
def rhai_init_event_pump (lockResult : Except String SDLContext)
    (pumpResult : Except String EventPump) :
    Except EvalAltResult Unit × Except String SDLContext :=
  bridgeCall lockResult fun ctx => ctx.init_event_pump pumpResult

/-- Registered `poll_event` (lines 374-391). -/
def rhai_poll_event (lockResult : Except String SDLContext) :
    Except EvalAltResult Bool × Except String SDLContext :=
  bridgeCall lockResult fun ctx => ctx.poll_event

/-- Registered `is_key_down` (lines 393-413). -/
def rhai_is_key_down (lockResult : Except String SDLContext) (key : String) :
    Except EvalAltResult Bool × Except String SDLContext :=
  bridgeCall lockResult fun ctx => ctx.is_key_down key

/-- Registered `is_mouse_button_down` (lines 415-435). -/
def rhai_is_mouse_button_down (lockResult : Except String SDLContext) (button : String) :
    Except EvalAltResult Bool × Except String SDLContext :=
  bridgeCall lockResult fun ctx => ctx.is_mouse_button_down button

/-- Registered `get_mouse_position` (lines 437-457). -/
def rhai_get_mouse_position (lockResult : Except String SDLContext) :
    Except EvalAltResult (Int × Int) × Except String SDLContext :=
  bridgeCall lockResult fun ctx => ctx.get_mouse_position

/-- Modelled from the spec: the `rand` crate's `Rng::gen_range(min..=max)`
used by the registered `rand` closure (lines 479-482) is not part of this
repository; per its documented contract it returns a uniformly sampled
value of the inclusive range when `min <= max` and panics on an empty or
inverted range.  `entropy` stands for the generator's draw; `none` stands
for the panic — the closure's `i64` return type has no error channel. -/
def gen_range (min max : Int) (entropy : Nat) : Option Int :=
  if min ≤ max then some (min + (entropy : Int) % (max - min + 1)) else none

/-- Registered `rand` (lines 478-482): forwards both bounds to
`gen_range` unchecked. -/
def rhai_rand (min max : Int) (entropy : Nat) : Option Int :=
  gen_range min max entropy

/-- C1: with an initialized event source, `poll_event` returns `true` on an
empty queue (consuming nothing), otherwise dequeues exactly the first
event, returning `true` for any non-quit event, and returns `false` if and
only if the dequeued event is a quit event; with no event source it fails
with the precondition error. -/
theorem poll_event_spec (ctx : SDLContext) :
    (ctx.event_pump = none →
      ctx.poll_event = (.error "Event pump not initialized", ctx)) ∧
    ∀ p, ctx.event_pump = some p →
      (p.queue = [] → ctx.poll_event = (.ok true, ctx)) ∧
      ∀ e rest, p.queue = e :: rest →
        (ctx.poll_event).2 = { ctx with event_pump := some { p with queue := rest } } ∧
        (e ≠ Event.quit → (ctx.poll_event).1 = .ok true) ∧
        ((ctx.poll_event).1 = .ok false ↔ e = Event.quit) := by
  refine ⟨fun h => ?_, fun p hp => ⟨fun hq => ?_, fun e rest hq => ?_⟩⟩
  · simp [SDLContext.poll_event, h]
  · simp [SDLContext.poll_event, hp, hq]
  · cases e <;> simp [SDLContext.poll_event, hp, hq]

/-- Witness for C1 at a concrete context whose queue holds a quit event. -/
theorem poll_event_spec_witness :
    ((SDLContext.mk none none (some ⟨[Event.quit], [], ⟨[], 0, 0⟩⟩)).poll_event).1
      = .ok false :=
  (((poll_event_spec _).2 _ rfl).2 Event.quit [] rfl).2.2.mpr rfl

/-- C3: every drawing, clear, set-color or present operation on a context
whose canvas was never set by a successful `create_window` fails with the
"Canvas not initialized" precondition error and leaves the context
unchanged. -/
theorem draw_ops_require_canvas (ctx : SDLContext) (h : ctx.canvas = none) :
    (∀ r g b, ctx.set_draw_color r g b = (.error "Canvas not initialized", ctx)) ∧
    ctx.clear = (.error "Canvas not initialized", ctx) ∧
    (∀ x y w hh br, ctx.draw_rect x y w hh br = (.error "Canvas not initialized", ctx)) ∧
    (∀ x y w hh br, ctx.fill_rect x y w hh br = (.error "Canvas not initialized", ctx)) ∧
    (∀ x y br, ctx.draw_point x y br = (.error "Canvas not initialized", ctx)) ∧
    (∀ x1 y1 x2 y2 br, ctx.draw_line x1 y1 x2 y2 br = (.error "Canvas not initialized", ctx)) ∧
    ctx.present = (.error "Canvas not initialized", ctx) := by
  refine ⟨fun r g b => ?_, ?_, fun x y w hh br => ?_, fun x y w hh br => ?_,
    fun x y br => ?_, fun x1 y1 x2 y2 br => ?_, ?_⟩ <;>
    simp [SDLContext.set_draw_color, SDLContext.clear, SDLContext.draw_rect,
      SDLContext.fill_rect, SDLContext.draw_point, SDLContext.draw_line,
      SDLContext.present, h]

/-- Witness for C3: `set_draw_color` on a fresh context (no window ever
created) reports the canvas precondition error. -/
theorem draw_ops_require_canvas_witness :
    (SDLContext.mk none none none).set_draw_color 0 0 0
      = (.error "Canvas not initialized", SDLContext.mk none none none) :=
  (draw_ops_require_canvas ⟨none, none, none⟩ rfl).1 0 0 0

/-- C4: every input-query operation on a context whose event pump was never
initialized fails with the "Event pump not initialized" precondition error
and leaves the context unchanged — no panic, no default value. -/
theorem input_ops_require_pump (ctx : SDLContext) (h : ctx.event_pump = none) :
    ctx.poll_event = (.error "Event pump not initialized", ctx) ∧
    (∀ key, ctx.is_key_down key = (.error "Event pump not initialized", ctx)) ∧
    (∀ button, ctx.is_mouse_button_down button
      = (.error "Event pump not initialized", ctx)) ∧
    ctx.get_mouse_position = (.error "Event pump not initialized", ctx) := by
  refine ⟨?_, fun key => ?_, fun button => ?_, ?_⟩ <;>
    simp [SDLContext.poll_event, SDLContext.is_key_down,
      SDLContext.is_mouse_button_down, SDLContext.get_mouse_position, h]

/-- Witness for C4 on a fresh context. -/
theorem input_ops_require_pump_witness :
    (SDLContext.mk none none none).poll_event
      = (.error "Event pump not initialized", SDLContext.mk none none none) :=
  (input_ops_require_pump ⟨none, none, none⟩ rfl).1

/-- C2: with the event source initialized, `is_key_down` succeeds (no
error) on every case-insensitive variant of `space`, `left`, `right`,
`up`, `down`, and on every other string returns the validation error
naming the invalid input; being a total Lean function, it never panics. -/
theorem is_key_down_spec (ctx : SDLContext) (p : EventPump)
    (hp : ctx.event_pump = some p) (key : String) :
    ((lowercase key = "space" ∨ lowercase key = "left" ∨ lowercase key = "right" ∨
        lowercase key = "up" ∨ lowercase key = "down") →
      ∃ b, ctx.is_key_down key = (.ok b, ctx)) ∧
    (lowercase key ≠ "space" → lowercase key ≠ "left" → lowercase key ≠ "right" →
      lowercase key ≠ "up" → lowercase key ≠ "down" →
      ctx.is_key_down key = (.error ("Unsupported key: " ++ key), ctx)) := by
  constructor
  · rintro (h | h | h | h | h)
    · exact ⟨p.keyboard.any fun s => s == Scancode.space,
        by simp [SDLContext.is_key_down, hp, keyScancode, h]⟩
    · exact ⟨p.keyboard.any fun s => s == Scancode.left,
        by simp [SDLContext.is_key_down, hp, keyScancode, h]⟩
    · exact ⟨p.keyboard.any fun s => s == Scancode.right,
        by simp [SDLContext.is_key_down, hp, keyScancode, h]⟩
    · exact ⟨p.keyboard.any fun s => s == Scancode.up,
        by simp [SDLContext.is_key_down, hp, keyScancode, h]⟩
    · exact ⟨p.keyboard.any fun s => s == Scancode.down,
        by simp [SDLContext.is_key_down, hp, keyScancode, h]⟩
  · intro h1 h2 h3 h4 h5
    simp [SDLContext.is_key_down, hp, keyScancode, h1, h2, h3, h4, h5]

/-- Witness for C2: an upper-case variant of a supported key succeeds, an
unsupported name reports the validation error, at a concrete context. -/
theorem is_key_down_spec_witness :
    (∃ b, (SDLContext.mk none none (some ⟨[], [Scancode.space], ⟨[], 0, 0⟩⟩)).is_key_down
        "SPACE" = (.ok b, SDLContext.mk none none (some ⟨[], [Scancode.space], ⟨[], 0, 0⟩⟩))) ∧
    (SDLContext.mk none none (some ⟨[], [Scancode.space], ⟨[], 0, 0⟩⟩)).is_key_down "enter"
      = (.error "Unsupported key: enter",
         SDLContext.mk none none (some ⟨[], [Scancode.space], ⟨[], 0, 0⟩⟩)) :=
  ⟨(is_key_down_spec _ _ rfl "SPACE").1 (Or.inl (by decide)),
   (is_key_down_spec _ _ rfl "enter").2 (by decide) (by decide) (by decide)
     (by decide) (by decide)⟩

/-- C7: the registration pattern shared by every bridged operation turns
every failure — lock-acquisition failure or context-operation failure —
into `EvalAltResult::ErrorRuntime` carrying exactly the original message
string, and no other error shape can come out of it. -/
theorem bridge_error_translation {α : Type} (op : SDLContext → Except String α × SDLContext) :
    (∀ msg, (bridgeCall (.error msg) op).1 = .error (.ErrorRuntime msg)) ∧
    (∀ ctx msg, (op ctx).1 = .error msg →
      (bridgeCall (.ok ctx) op).1 = .error (.ErrorRuntime msg)) ∧
    (∀ lockResult err, (bridgeCall lockResult op).1 = .error err →
      ∃ msg, err = .ErrorRuntime msg ∧
        (lockResult = .error msg ∨
          ∃ ctx, lockResult = .ok ctx ∧ (op ctx).1 = .error msg)) := by
  refine ⟨fun msg => rfl, fun ctx msg h => ?_, fun lockResult err h => ?_⟩
  · rcases hop : op ctx with ⟨r, ctx'⟩
    rw [hop] at h
    simp at h
    simp [bridgeCall, hop, h]
  · cases lockResult with
    | error e =>
      simp [bridgeCall] at h
      exact ⟨e, h.symm, Or.inl rfl⟩
    | ok ctx =>
      rcases hop : op ctx with ⟨r, ctx'⟩
      cases r with
      | ok v => simp [bridgeCall, hop] at h
      | error m =>
        simp [bridgeCall, hop] at h
        exact ⟨m, h.symm, Or.inr ⟨ctx, rfl, by rw [hop]⟩⟩

/-- Witness for C7: a context failure ("Canvas not initialized" from a
bridged operation) comes out as `ErrorRuntime` with that exact payload. -/
theorem bridge_error_translation_witness :
    (bridgeCall (.ok (SDLContext.mk none none none))
        (fun ctx => ctx.set_draw_color 0 0 0)).1
      = .error (.ErrorRuntime "Canvas not initialized") :=
  (bridge_error_translation _).2.1 ⟨none, none, none⟩ "Canvas not initialized" rfl

/-- C8: a second `create_window` on a context that already holds a window
and canvas succeeds (given the backend builds the new window) and replaces
both stored resources with the new ones. -/
theorem create_window_replaces (ctx : SDLContext) (w0 : Window) (c0 : Canvas)
    (_hw : ctx.window = some w0) (_hc : ctx.canvas = some c0)
    (title : String) (width height : Int) :
    ctx.create_window title width height (.ok ()) (.ok ()) =
      (.ok (), { ctx with
        window := some (Window.mk title (as_u32 width) (as_u32 height)),
        canvas := some (Canvas.init (Window.mk title (as_u32 width) (as_u32 height))) }) := by
  simp [SDLContext.create_window]

/-- Witness for C8: re-creating over an existing window/canvas succeeds
and stores the new window and a fresh canvas. -/
theorem create_window_replaces_witness :
    (SDLContext.mk (some ⟨"old", 1, 1⟩) (some (Canvas.init ⟨"old", 1, 1⟩)) none).create_window
        "new" 640 480 (.ok ()) (.ok ())
      = (.ok (), SDLContext.mk (some ⟨"new", 640, 480⟩)
          (some (Canvas.init ⟨"new", 640, 480⟩)) none) := by
  have h := create_window_replaces
    ⟨some ⟨"old", 1, 1⟩, some (Canvas.init ⟨"old", 1, 1⟩), none⟩
    ⟨"old", 1, 1⟩ (Canvas.init ⟨"old", 1, 1⟩) rfl rfl "new" 640 480
  simpa [as_u32] using h

/-- C9: every fallible context operation is atomic in its stored state —
whenever it returns an error, the post-state context equals the pre-state
context; in particular a failed `create_window` or `init_event_pump`
stores nothing. -/
theorem error_atomicity (ctx : SDLContext) :
    (∀ t w h vr br e, (ctx.create_window t w h vr br).1 = .error e →
      (ctx.create_window t w h vr br).2 = ctx) ∧
    (∀ r g b e, (ctx.set_draw_color r g b).1 = .error e →
      (ctx.set_draw_color r g b).2 = ctx) ∧
    (∀ e, ctx.clear.1 = .error e → ctx.clear.2 = ctx) ∧
    (∀ x y w h br e, (ctx.draw_rect x y w h br).1 = .error e →
      (ctx.draw_rect x y w h br).2 = ctx) ∧
    (∀ x y w h br e, (ctx.fill_rect x y w h br).1 = .error e →
      (ctx.fill_rect x y w h br).2 = ctx) ∧
    (∀ x y br e, (ctx.draw_point x y br).1 = .error e →
      (ctx.draw_point x y br).2 = ctx) ∧
    (∀ x1 y1 x2 y2 br e, (ctx.draw_line x1 y1 x2 y2 br).1 = .error e →
      (ctx.draw_line x1 y1 x2 y2 br).2 = ctx) ∧
    (∀ e, ctx.present.1 = .error e → ctx.present.2 = ctx) ∧
    (∀ pr e, (ctx.init_event_pump pr).1 = .error e →
      (ctx.init_event_pump pr).2 = ctx) ∧
    (∀ e, ctx.poll_event.1 = .error e → ctx.poll_event.2 = ctx) ∧
    (∀ k e, (ctx.is_key_down k).1 = .error e → (ctx.is_key_down k).2 = ctx) ∧
    (∀ b e, (ctx.is_mouse_button_down b).1 = .error e →
      (ctx.is_mouse_button_down b).2 = ctx) ∧
    (∀ e, ctx.get_mouse_position.1 = .error e → ctx.get_mouse_position.2 = ctx) := by
  refine ⟨fun t w h vr br e hE => ?_, fun r g b e hE => ?_, fun e hE => ?_,
    fun x y w h br e hE => ?_, fun x y w h br e hE => ?_, fun x y br e hE => ?_,
    fun x1 y1 x2 y2 br e hE => ?_, fun e hE => ?_, fun pr e hE => ?_,
    fun e hE => ?_, fun k e hE => ?_, fun b e hE => ?_, fun e hE => ?_⟩
  · cases vr <;> cases br <;> simp_all [SDLContext.create_window]
  · rcases hc : ctx.canvas <;> simp_all [SDLContext.set_draw_color]
  · rcases hc : ctx.canvas <;> simp_all [SDLContext.clear]
  · rcases hc : ctx.canvas <;> cases br <;> simp_all [SDLContext.draw_rect]
  · rcases hc : ctx.canvas <;> cases br <;> simp_all [SDLContext.fill_rect]
  · rcases hc : ctx.canvas <;> cases br <;> simp_all [SDLContext.draw_point]
  · rcases hc : ctx.canvas <;> cases br <;> simp_all [SDLContext.draw_line]
  · rcases hc : ctx.canvas <;> simp_all [SDLContext.present]
  · cases pr <;> simp_all [SDLContext.init_event_pump]
  · rcases hc : ctx.event_pump with _ | p
    · simp_all [SDLContext.poll_event]
    · rcases hq : p.queue with _ | ⟨ev, rest⟩
      · simp_all [SDLContext.poll_event]
      · cases ev <;> simp_all [SDLContext.poll_event]
  · rcases hc : ctx.event_pump with _ | p
    · simp_all [SDLContext.is_key_down]
    · rcases hk : keyScancode k <;> simp_all [SDLContext.is_key_down]
  · rcases hc : ctx.event_pump with _ | p
    · simp_all [SDLContext.is_mouse_button_down]
    · rcases hk : buttonMask b <;> simp_all [SDLContext.is_mouse_button_down]
  · rcases hc : ctx.event_pump <;> simp_all [SDLContext.get_mouse_position]

/-- Witness for C9: a failed `create_window` (backend refuses to build)
at a fresh context stores nothing. -/
theorem error_atomicity_witness :
    ((SDLContext.mk none none none).create_window "t" 640 480 (.ok ())
        (.error "build failed")).2 = SDLContext.mk none none none :=
  (error_atomicity ⟨none, none, none⟩).1 "t" 640 480 (.ok ()) (.error "build failed")
    "build failed" rfl

/-- C5: the registered `rand(min, max)` with `min ≤ max` always yields a
value inside the inclusive range; in particular `rand(1, 1)` is always
`1`. -/
theorem rand_in_range (min max : Int) (h : min ≤ max) (entropy : Nat) :
    (∃ v, rhai_rand min max entropy = some v ∧ min ≤ v ∧ v ≤ max) ∧
    rhai_rand 1 1 entropy = some 1 := by
  constructor
  · refine ⟨min + (entropy : Int) % (max - min + 1), ?_, ?_, ?_⟩
    · simp [rhai_rand, gen_range, h]
    · have h0 : (0 : Int) ≤ (entropy : Int) % (max - min + 1) :=
        Int.emod_nonneg _ (by omega)
      omega
    · have h1 : (entropy : Int) % (max - min + 1) < max - min + 1 :=
        Int.emod_lt_of_pos _ (by omega)
      omega
  · simp [rhai_rand, gen_range]

/-- Witness for C5 at the range `[5, 10]` with a concrete entropy draw. -/
theorem rand_in_range_witness :
    (∃ v, rhai_rand 5 10 7 = some v ∧ 5 ≤ v ∧ v ≤ 10) ∧
    rhai_rand 1 1 7 = some 1 :=
  rand_in_range 5 10 (by decide) 7

/-- C6: the registered `rand(min, max)` with `min > max` hits the
range-sampling primitive's panic on an empty or inverted range (modelled
as `none`); the closure's plain `i64` return type offers no error channel,
so the condition is never translated into a reported error. -/
theorem rand_inverted_range_panics (min max : Int) (h : max < min) (entropy : Nat) :
    rhai_rand min max entropy = none := by
  unfold rhai_rand gen_range
  rw [if_neg (not_le.mpr h)]

/-- Witness for C6 at the inverted range `(5, 1)`. -/
theorem rand_inverted_range_panics_witness : rhai_rand 5 1 0 = none :=
  rand_inverted_range_panics 5 1 (by decide) 0

/-- Helper: the `i64 → u8` truncating cast only depends on the argument
modulo 256. -/
theorem as_u8_emod (v : Int) : as_u8 (v % 256) = as_u8 v := by
  unfold as_u8
  rw [Int.emod_emod_of_dvd _ dvd_rfl]

/-- Helper: the `i64 → i32` truncating cast only depends on the argument
modulo `2 ^ 32`. -/
theorem as_i32_emod (v : Int) : as_i32 (v % 2 ^ 32) = as_i32 v := by
  unfold as_i32
  omega

/-- C10: the bridge narrows script integers by truncating casts, never by
range validation: the registered `set_draw_color` sees each channel only
modulo 256 (`256` behaves as `0`, `-1` as `255`), `create_window`
width/height go through `i64 → i32 → u32`, which is reduction modulo
`2 ^ 32`, and no integer argument is ever rejected as out of range — with
the canvas present, `set_draw_color` succeeds for every `i64` triple. -/
theorem bridge_truncating_casts (r g b width : Int) :
    (∀ lockResult, rhai_set_draw_color lockResult r g b
      = rhai_set_draw_color lockResult (r % 256) (g % 256) (b % 256)) ∧
    as_u8 256 = 0 ∧ as_u8 (-1) = 255 ∧
    as_u32 (as_i32 width) = (width % 2 ^ 32).toNat ∧
    (∀ lockResult title h vr br, rhai_create_window lockResult title width h vr br
      = rhai_create_window lockResult title (width % 2 ^ 32) h vr br) ∧
    (∀ ctx c, ctx.canvas = some c → (rhai_set_draw_color (.ok ctx) r g b).1 = .ok ()) := by
  refine ⟨fun lockResult => ?_, by decide, by decide, ?_, fun lockResult title h vr br => ?_,
    fun ctx c hc => ?_⟩
  · simp only [rhai_set_draw_color, as_u8_emod]
  · unfold as_u32 as_i32
    omega
  · simp only [rhai_create_window, as_i32_emod]
  · simp [rhai_set_draw_color, bridgeCall, SDLContext.set_draw_color, hc]

/-- Witness for C10: with a live canvas, the out-of-range channels
`(256, -1, 999)` are accepted, not rejected. -/
theorem bridge_truncating_casts_witness :
    (rhai_set_draw_color
        (.ok (SDLContext.mk none (some (Canvas.init ⟨"t", 1, 1⟩)) none)) 256 (-1) 999).1
      = .ok () :=
  (bridge_truncating_casts 256 (-1) 999 0).2.2.2.2.2
    ⟨none, some (Canvas.init ⟨"t", 1, 1⟩), none⟩ (Canvas.init ⟨"t", 1, 1⟩) rfl

end RhaiSdl
